import Mathlib

/-!
Shallow embedding of `src/face/facemesh.ts` (BlazeFace / FaceMesh / Iris glue).

The file under verification keeps a module-level cache of detector boxes
(`boxCache`), a consecutive-skip counter (`skipped`), the time of the last
detector run (`lastTime`), the loaded mesh model (`model`) and its input size
(`inputSize`).  `predict` decides whether to re-run the blazeface detector or
reuse the cache, then processes every cached box, and `load` loads the mesh
model.

The neighbouring modules (`blazeface`, `facemeshutil`, `facemeshcoords`,
`iris`, the tensor runtime) are not part of the source tree here; they are
modelled as abstract operations:
* `FaceUtil` packages the `facemeshutil` helpers and `iris.augmentIris`;
* `CoordsData` packages the `facemeshcoords` annotation tables;
* `World` packages the per-call external inputs: the two `now()` readings,
  the blazeface detector results, the mesh model execution oracle, the
  kernel list of `env`, and `blazeface.size()`.

Numbers are modelled as rationals.  JavaScript `x || d` on optional numbers
is `jsOr` (both `undefined` and `0` are falsy), `Math.round` is `jsRound`
(round half toward positive infinity).  The irrational enlargement factor
`Math.sqrt(enlargeFact)` of line 45 is represented symbolically by
`EnlargeFactor.sqrtNum enlargeFact`, and the plain factor `enlargeFact` of
line 105 by `EnlargeFactor.num enlargeFact`; both are consumed only by the
abstract `enlargeBox`.
-/

namespace Facemesh

/-- A 2-d point (detector start/end points and landmarks are pairs). -/
abbrev Pt2 := ℚ × ℚ

/-- `type BoxCache = { startPoint, endPoint, landmarks, confidence }` (line 21). -/
structure BoxCache where
  startPoint : Pt2
  endPoint : Pt2
  landmarks : List Pt2
  confidence : ℚ
deriving DecidableEq

/-- Symbolic argument passed to the abstract `enlargeBox`:
`num q` denotes the literal factor `q`, `sqrtNum q` denotes `Math.sqrt(q)`. -/
inductive EnlargeFactor where
  | num (q : ℚ)
  | sqrtNum (q : ℚ)
deriving DecidableEq

/-- `config.face.detector` fields read by this module. -/
structure DetectorConfig where
  skipTime : Option ℚ
  skipFrames : Option ℚ
  minConfidence : Option ℚ
  rotation : Bool
deriving DecidableEq

/-- `config.face.mesh` fields read by this module. -/
structure MeshConfig where
  enabled : Bool
deriving DecidableEq

/-- `config.face.iris` fields read by this module. -/
structure IrisConfig where
  enabled : Bool
deriving DecidableEq

/-- `config.face`; the three sub-configs are optional (`?.` in the source). -/
structure FaceConfig where
  detector : Option DetectorConfig
  mesh : Option MeshConfig
  iris : Option IrisConfig
deriving DecidableEq

/-- The slice of `Config` read by this module. -/
structure Config where
  skipAllowed : Bool
  debug : Bool
  face : FaceConfig
deriving DecidableEq

/-- JavaScript `x || d` for an optional number `x`: `undefined` and `0` are falsy. -/
def jsOr (x : Option ℚ) (d : ℚ) : ℚ :=
  match x with
  | none => d
  | some v => if v = 0 then d else v

/-- `config.face.detector?.skipTime || 0` (line 32). -/
def cfgSkipTime (cfg : Config) : ℚ := jsOr (cfg.face.detector.bind (·.skipTime)) 0

/-- `config.face.detector?.skipFrames || 0` (line 33). -/
def cfgSkipFrames (cfg : Config) : ℚ := jsOr (cfg.face.detector.bind (·.skipFrames)) 0

/-- `config.face.detector?.minConfidence || 1` (line 98). -/
def cfgMinConfidence (cfg : Config) : ℚ := jsOr (cfg.face.detector.bind (·.minConfidence)) 1

/-- truthiness of `config.face.detector?.rotation` (line 71). -/
def cfgRotation (cfg : Config) : Bool := (cfg.face.detector.map (·.rotation)).getD false

/-- truthiness of `config.face.mesh?.enabled` (lines 71, 75, 78). -/
def cfgMeshEnabled (cfg : Config) : Bool := (cfg.face.mesh.map (·.enabled)).getD false

/-- truthiness of `config.face.iris?.enabled` (line 101). -/
def cfgIrisEnabled (cfg : Config) : Bool := (cfg.face.iris.map (·.enabled)).getD false

/-- JavaScript `Math.round`: round half toward positive infinity. -/
def jsRound (q : ℚ) : ℤ := ⌊q + 1 / 2⌋

/-- `Math.round(100 * c) / 100` (lines 77, 81, 94). -/
def roundScore (c : ℚ) : ℚ := (jsRound (100 * c) : ℚ) / 100

/-- The loaded `GraphModel` as far as this module reads it:
`model['modelUrl']` and `model.inputs[0].shape`. -/
structure GraphModelM where
  modelUrl : Option String
  inputShape : Option (List ℤ)
deriving DecidableEq

/-- The module-level mutable state (lines 22-26). -/
structure MeshState where
  boxCache : List BoxCache
  model : Option GraphModelM
  inputSize : ℤ
  skipped : ℕ
  lastTime : ℚ
deriving DecidableEq

/-- `Number.MAX_SAFE_INTEGER`, the initial value of `skipped` (line 25). -/
def maxSafeInteger : ℕ := 2 ^ 53 - 1

/-- The initial module state (lines 22-26). -/
def initialState : MeshState :=
  { boxCache := [], model := none, inputSize := 0, skipped := maxSafeInteger, lastTime := 0 }

/-- `const enlargeFact = 1.6` (line 27). -/
def enlargeFact : ℚ := 8 / 5

/-- The `input` tensor: opaque data of type `T` plus `input.shape[1]` and
`input.shape[2]` as read on lines 87 and 103. -/
structure InputT (T : Type) where
  data : T
  shape1 : Option ℚ
  shape2 : Option ℚ
deriving DecidableEq

/-- Abstract interface to the `facemeshutil` helpers and `iris.augmentIris`;
these modules are outside the source tree, so their operations are opaque. -/
structure FaceUtil (T : Type) where
  scaleBoxCoordinates : BoxCache → ℚ × ℚ → BoxCache
  enlargeBox : BoxCache → EnlargeFactor → BoxCache
  squarifyBox : BoxCache → BoxCache
  fixedRotationMatrix : List (List ℚ)
  correctFaceRotation : BoxCache → T → ℤ → ℚ × List (List ℚ) × T
  cutBoxFromImageAndResize : BoxCache → T → ℤ × ℤ → T
  getClampedBox : BoxCache → InputT T → List ℚ
  getRawBox : BoxCache → InputT T → List ℚ
  transformRawCoords : List (List ℚ) → BoxCache → ℚ → List (List ℚ) → ℤ → List (List ℚ)
  calculateLandmarksBoundingBox : List (List ℚ) → BoxCache
  augmentIris : List (List ℚ) → T → Config → ℤ → List (List ℚ)

/-- Abstract interface to the `facemeshcoords` tables (lines 88, 104). -/
structure CoordsData where
  blazeFaceLandmarks : List (String × ℕ)
  meshAnnotations : List (String × List ℕ)

/-- Per-call external inputs of `predict`: the two `now()` readings (lines 32
and 36), the blazeface detector output (line 35), the mesh model execution
oracle (lines 92-96: confidence value and reshaped raw coordinates), the
kernel list of `env` (line 71) and `blazeface.size()` (lines 75, 84-85). -/
structure World (T : Type) where
  checkNow : ℚ
  refreshNow : ℚ
  detBoxes : List BoxCache
  scaleFactor : ℚ × ℚ
  execMesh : T → ℚ × List (List ℚ)
  kernels : List String
  blazefaceSize : ℤ

/-- Lines 32-34: the detector is re-run when skipping is not allowed, the
skip-time window has expired, the skip-frame budget is exhausted, or the
cache is empty. -/
def shouldRefresh (cfg : Config) (st : MeshState) (checkNow : ℚ) : Bool :=
  let skipTime : Bool := decide (cfgSkipTime cfg > checkNow - st.lastTime)
  let skipFrame : Bool := decide ((st.skipped : ℚ) < cfgSkipFrames cfg)
  !cfg.skipAllowed || !skipTime || !skipFrame || st.boxCache.length == 0

/-- Line 45: a detector box is scaled, enlarged by `Math.sqrt(enlargeFact)`
and squarified before entering the cache. -/
def detectBox (U : FaceUtil T) (scaleFactor : ℚ × ℚ) (b : BoxCache) : BoxCache :=
  U.squarifyBox (U.enlargeBox (U.scaleBoxCoordinates b scaleFactor) (EnlargeFactor.sqrtNum enlargeFact))

/-- Line 71: rotation correction applies only with detector rotation on, mesh
enabled, and the runtime kernel list containing the rotation kernel. -/
def rotationApplies (cfg : Config) (kernels : List String) : Bool :=
  cfgRotation cfg && cfgMeshEnabled cfg && kernels.contains "rotatewithoffset"

/-- Lines 71-76: angle, rotation matrix and cropped tensor for one cached box. -/
def cropBox (U : FaceUtil T) (cfg : Config) (w : World T) (input : InputT T)
    (inputSize : ℤ) (box : BoxCache) : ℚ × List (List ℚ) × T :=
  if rotationApplies cfg w.kernels then
    U.correctFaceRotation box input.data inputSize
  else
    (0, U.fixedRotationMatrix,
      U.cutBoxFromImageAndResize box input.data
        (if cfgMeshEnabled cfg then (inputSize, inputSize) else (w.blazefaceSize, w.blazefaceSize)))

/-- A `FaceResult` as far as this module fills it (lines 59-69 and later). -/
structure FaceResult (T : Type) where
  id : ℕ
  mesh : List (List ℚ)
  meshRaw : List (List ℚ)
  box : List ℚ
  boxRaw : List ℚ
  score : ℚ
  boxScore : ℚ
  faceScore : ℚ
  annotations : List (String × List (Option (List ℚ)))
  tensor : Option T
deriving DecidableEq

/-- Lines 87 and 103: one normalized (`raw`) point; `pt[2] || 0` is read as
the third component defaulting to `0`. -/
def rawPoint (input : InputT T) (inputSize : ℤ) (pt : List ℚ) : List ℚ :=
  [pt.getD 0 0 / jsOr input.shape2 0,
   pt.getD 1 0 / jsOr input.shape1 0,
   pt.getD 2 0 / (inputSize : ℚ)]

/-- Lines 83-86: the pseudo-mesh built from detector landmarks when the mesh
model is disabled. -/
def detectorMesh (box : BoxCache) (blazeSize : ℤ) : List (List ℚ) :=
  box.landmarks.map (fun pt =>
    [(box.startPoint.1 + box.endPoint.1) / 2 + (box.endPoint.1 + box.startPoint.1) * pt.1 / (blazeSize : ℚ),
     (box.startPoint.2 + box.endPoint.2) / 2 + (box.endPoint.2 + box.startPoint.2) * pt.2 / (blazeSize : ℚ)])

/-- Lines 59-69 plus lines 72/75 and 77: the freshly initialized face result
for one cached box, with its tensor and rounded box score already set. -/
def initFace (U : FaceUtil T) (cfg : Config) (w : World T) (input : InputT T)
    (inputSize : ℤ) (idx : ℕ) (box : BoxCache) : FaceResult T :=
  { id := idx, mesh := [], meshRaw := [], box := [0, 0, 0, 0], boxRaw := [0, 0, 0, 0],
    score := 0, boxScore := roundScore box.confidence, faceScore := 0, annotations := [],
    tensor := some (cropBox U cfg w input inputSize box).2.2 }

/-- Lines 79-88: the face result of the detector-only branch. -/
def detectorFace (U : FaceUtil T) (C : CoordsData) (cfg : Config) (w : World T)
    (input : InputT T) (inputSize : ℤ) (idx : ℕ) (box : BoxCache) : FaceResult T :=
  { initFace U cfg w input inputSize idx box with
    box := U.getClampedBox box input,
    boxRaw := U.getRawBox box input,
    boxScore := roundScore box.confidence,
    score := roundScore box.confidence,
    mesh := detectorMesh box w.blazefaceSize,
    meshRaw := (detectorMesh box w.blazefaceSize).map (rawPoint input inputSize),
    annotations := C.blazeFaceLandmarks.map (fun kv => (kv.1, [(detectorMesh box w.blazefaceSize)[kv.2]?])) }

/-- Lines 92-94: the rounded mesh-model confidence for one cached box. -/
def meshFaceScore (U : FaceUtil T) (cfg : Config) (w : World T) (input : InputT T)
    (inputSize : ℤ) (box : BoxCache) : ℚ :=
  roundScore (w.execMesh (cropBox U cfg w input inputSize box).2.2).1

/-- Lines 95-102: the processed mesh (raw coordinates, optionally augmented by
iris, transformed into image space). -/
def meshPoints (U : FaceUtil T) (cfg : Config) (w : World T) (input : InputT T)
    (inputSize : ℤ) (box : BoxCache) : List (List ℚ) :=
  let t := (cropBox U cfg w input inputSize box).2.2
  let raw := (w.execMesh t).2
  let raw2 := if cfgIrisEnabled cfg then U.augmentIris raw t cfg inputSize else raw
  U.transformRawCoords raw2 box (cropBox U cfg w input inputSize box).1
    (cropBox U cfg w input inputSize box).2.1 inputSize

/-- Line 105: the box re-derived from the computed mesh, enlarged by
`enlargeFact` and squarified. -/
def meshBox (U : FaceUtil T) (cfg : Config) (w : World T) (input : InputT T)
    (inputSize : ℤ) (box : BoxCache) : BoxCache :=
  U.squarifyBox (U.enlargeBox (U.calculateLandmarksBoundingBox (meshPoints U cfg w input inputSize box))
    (EnlargeFactor.num enlargeFact))

/-- The log message of line 90. -/
def notLoadedMsg : String := "face mesh detection requested, but model is not loaded"

/-- The outcome of processing one cached box in the loop of lines 55-121:
the face result pushed to `faces`, the optional box pushed to `newCache`,
the (possibly confidence-overwritten, line 99) cache entry, and the log
messages emitted. -/
structure BoxOutcome (T : Type) where
  face : FaceResult T
  cacheEntry : Option BoxCache
  updatedBox : BoxCache
  logs : List String
deriving DecidableEq

/-- Lines 55-121: the body of the per-box loop of `predict`. -/
def processBox (U : FaceUtil T) (C : CoordsData) (w : World T) (cfg : Config)
    (input : InputT T) (modelLoaded : Bool) (inputSize : ℤ) (idx : ℕ) (box : BoxCache) :
    BoxOutcome T :=
  if !cfgMeshEnabled cfg then
    { face := detectorFace U C cfg w input inputSize idx box,
      cacheEntry := none, updatedBox := box, logs := [] }
  else if !modelLoaded then
    { face := initFace U cfg w input inputSize idx box,
      cacheEntry := none, updatedBox := box,
      logs := if cfg.debug then [notLoadedMsg] else [] }
  else if meshFaceScore U cfg w input inputSize box < cfgMinConfidence cfg then
    { face := { initFace U cfg w input inputSize idx box with
        faceScore := meshFaceScore U cfg w input inputSize box },
      cacheEntry := none,
      updatedBox := { box with confidence := meshFaceScore U cfg w input inputSize box },
      logs := [] }
  else
    { face := { initFace U cfg w input inputSize idx box with
        faceScore := meshFaceScore U cfg w input inputSize box,
        mesh := meshPoints U cfg w input inputSize box,
        meshRaw := (meshPoints U cfg w input inputSize box).map (rawPoint input inputSize),
        annotations := C.meshAnnotations.map
          (fun kv => (kv.1, kv.2.map (fun j => (meshPoints U cfg w input inputSize box)[j]?))),
        box := U.getClampedBox (meshBox U cfg w input inputSize box) input,
        boxRaw := U.getRawBox (meshBox U cfg w input inputSize box) input,
        score := meshFaceScore U cfg w input inputSize box },
      cacheEntry := some (meshBox U cfg w input inputSize box),
      updatedBox := box, logs := [] }

/-- The loop of lines 55-121 with the running `id` counter. -/
def processAll (U : FaceUtil T) (C : CoordsData) (w : World T) (cfg : Config)
    (input : InputT T) (modelLoaded : Bool) (inputSize : ℤ) :
    ℕ → List BoxCache → List (BoxOutcome T)
  | _, [] => []
  | idx, b :: rest =>
    processBox U C w cfg input modelLoaded inputSize idx b ::
      processAll U C w cfg input modelLoaded inputSize (idx + 1) rest

/-- The observable result of one `predict` call: the returned faces, the new
module state, the log messages, whether the detector was re-run, and the
cache the loop iterated over (the value of `boxCache` during lines 55-121). -/
structure PredictOut (T : Type) where
  faces : List (FaceResult T)
  st : MeshState
  logs : List String
  refreshed : Bool
  midCache : List BoxCache
deriving DecidableEq

/-- Lines 29-124: one call to `predict`. -/
def predict (U : FaceUtil T) (C : CoordsData) (w : World T) (cfg : Config)
    (input : InputT T) (st : MeshState) : PredictOut T :=
  let refresh := shouldRefresh cfg st w.checkNow
  let midCache := if refresh then w.detBoxes.map (detectBox U w.scaleFactor) else st.boxCache
  let outs := processAll U C w cfg input st.model.isSome st.inputSize 0 midCache
  { faces := outs.map (·.face),
    st := { boxCache := outs.filterMap (·.cacheEntry),
            model := st.model,
            inputSize := st.inputSize,
            skipped := if refresh then 0 else st.skipped + 1,
            lastTime := if refresh then w.refreshNow else st.lastTime },
    logs := (outs.map (·.logs)).flatten,
    refreshed := refresh,
    midCache := midCache }

/-- Per-call external inputs of `load`: `env.initial` (line 127) and the value
produced by `tf.loadGraphModel` (line 129), `none` standing for `null`. -/
structure LoadWorld where
  envInitial : Bool
  loadResult : Option GraphModelM
deriving DecidableEq

/-- JavaScript truthiness of `model['modelUrl']` (an absent or empty string is falsy). -/
def jsTruthyStr (s : Option String) : Bool :=
  match s with
  | none => false
  | some v => v ≠ ""

/-- The log message of line 130. -/
def loadFailedMsg : String := "load model failed:"

/-- The log message of line 131. -/
def loadedMsg : String := "load model:"

/-- The log message of line 132. -/
def cachedMsg : String := "cached model:"

/-- Lines 126-136: one call to `load`.  `Except.error logs` marks the
TypeError raised on line 133 when `model` is still `null` there (that line
dereferences `model.inputs` unconditionally); the error payload carries the
messages logged before the raise (line 130 runs first). -/
def load (w : LoadWorld) (cfg : Config) (st : MeshState) :
    Except (List String) (MeshState × GraphModelM × List String) :=
  let m0 := if w.envInitial then none else st.model
  let res : Option GraphModelM × List String :=
    match m0 with
    | none =>
      match w.loadResult with
      | none => (none, [loadFailedMsg])
      | some g =>
        (some g,
          if !jsTruthyStr g.modelUrl then [loadFailedMsg]
          else if cfg.debug then [loadedMsg] else [])
    | some g => (some g, if cfg.debug then [cachedMsg] else [])
  match res.1 with
  | none => Except.error res.2
  | some g =>
    let isz : ℤ := match g.inputShape with
      | none => 0
      | some sh => sh.getD 2 0
    Except.ok ({ st with model := some g, inputSize := if isz = -1 then 64 else isz }, g, res.2)

/-- A sequence of `predict` calls under one fixed config, threading the module
state; returns the final state and, per call, whether the detector was re-run. -/
def runCalls (U : FaceUtil T) (C : CoordsData) (cfg : Config) :
    MeshState → List (World T × InputT T) → MeshState × List Bool
  | st, [] => (st, [])
  | st, c :: cs =>
    let out := predict U C c.1 cfg c.2 st
    let rest := runCalls U C cfg out.st cs
    (rest.1, out.refreshed :: rest.2)

/-- The number of trailing `false` entries of a flag list: how many calls at
the end of a run reused the cache instead of re-running the detector. -/
def trailingFalse : List Bool → ℕ
  | [] => 0
  | b :: rest =>
    if trailingFalse rest = rest.length then
      (if b then trailingFalse rest else trailingFalse rest + 1)
    else trailingFalse rest

/-! ### Concrete fixtures used by witnesses and counterexamples -/

/-- A concrete instantiation of the abstract helper operations over the
trivial tensor type, used to evaluate the model on closed inputs. -/
def testUtil : FaceUtil Unit :=
  { scaleBoxCoordinates := fun b _ => b,
    enlargeBox := fun b _ => b,
    squarifyBox := fun b => b,
    fixedRotationMatrix := [],
    correctFaceRotation := fun _ _ _ => (0, [], ()),
    cutBoxFromImageAndResize := fun _ _ _ => (),
    getClampedBox := fun _ _ => [0, 0, 0, 0],
    getRawBox := fun _ _ => [0, 0, 0, 0],
    transformRawCoords := fun raw _ _ _ _ => raw,
    calculateLandmarksBoundingBox := fun _ =>
      { startPoint := (0, 0), endPoint := (1, 1), landmarks := [], confidence := 1 },
    augmentIris := fun raw _ _ _ => raw }

/-- Concrete annotation tables. -/
def testCoords : CoordsData := { blazeFaceLandmarks := [], meshAnnotations := [] }

/-- A concrete detector box. -/
def testBox : BoxCache :=
  { startPoint := (0, 0), endPoint := (1, 1), landmarks := [], confidence := 9 / 10 }

/-- A concrete loaded mesh model. -/
def testModel : GraphModelM := { modelUrl := some "facemesh.json", inputShape := some [1, 192, 192, 3] }

/-- A concrete input tensor. -/
def testInput : InputT Unit := { data := (), shape1 := some 100, shape2 := some 200 }

/-- A concrete config with the mesh model enabled, skipFrames = 1. -/
def cfgMeshOn : Config :=
  { skipAllowed := true, debug := false,
    face := { detector := some { skipTime := some 1000, skipFrames := some 1,
                                 minConfidence := some (1 / 10), rotation := false },
              mesh := some { enabled := true },
              iris := some { enabled := false } } }

/-- `cfgMeshOn` with debug logging on. -/
def cfgDebug : Config := { cfgMeshOn with debug := true }

/-- `cfgMeshOn` with the mesh model disabled. -/
def cfgMeshOff : Config :=
  { cfgMeshOn with face := { cfgMeshOn.face with mesh := some { enabled := false } } }

/-- A concrete call world whose detector finds one box and whose mesh model
answers with confidence 1. -/
def worldHigh : World Unit :=
  { checkNow := 0, refreshNow := 0, detBoxes := [testBox], scaleFactor := (1, 1),
    execMesh := fun _ => (1, [[5, 6, 7]]), kernels := [], blazefaceSize := 256 }

/-- `worldHigh` with a mesh model answering with confidence 0. -/
def worldLow : World Unit :=
  { worldHigh with execMesh := fun _ => (0, [[5, 6, 7]]) }

/-- A state in which the mesh model is loaded and the cache is empty. -/
def stLoaded : MeshState :=
  { boxCache := [], model := some testModel, inputSize := 192,
    skipped := maxSafeInteger, lastTime := 0 }

/-! ### Basic lemmas about the embedding -/

theorem shouldRefresh_iff (cfg : Config) (st : MeshState) (t : ℚ) :
    shouldRefresh cfg st t = true ↔
      (cfg.skipAllowed = false ∨ cfgSkipTime cfg ≤ t - st.lastTime ∨
        cfgSkipFrames cfg ≤ (st.skipped : ℚ) ∨ st.boxCache = []) := by
  simp only [shouldRefresh, Bool.or_eq_true, Bool.not_eq_true', decide_eq_false_iff_not,
    not_lt, List.length_eq_zero, beq_iff_eq]
  tauto

theorem shouldRefresh_false_skipFrame (cfg : Config) (st : MeshState) (t : ℚ)
    (h : shouldRefresh cfg st t = false) : (st.skipped : ℚ) < cfgSkipFrames cfg := by
  simp only [shouldRefresh, Bool.or_eq_false_iff, Bool.not_eq_false', decide_eq_true_eq] at h
  exact h.1.2

theorem predict_refreshed (U : FaceUtil T) (C : CoordsData) (w : World T)
    (cfg : Config) (input : InputT T) (st : MeshState) :
    (predict U C w cfg input st).refreshed = shouldRefresh cfg st w.checkNow := rfl

theorem predict_midCache (U : FaceUtil T) (C : CoordsData) (w : World T)
    (cfg : Config) (input : InputT T) (st : MeshState) :
    (predict U C w cfg input st).midCache =
      if shouldRefresh cfg st w.checkNow then w.detBoxes.map (detectBox U w.scaleFactor)
      else st.boxCache := rfl

theorem predict_skipped (U : FaceUtil T) (C : CoordsData) (w : World T)
    (cfg : Config) (input : InputT T) (st : MeshState) :
    (predict U C w cfg input st).st.skipped =
      if shouldRefresh cfg st w.checkNow then 0 else st.skipped + 1 := rfl

theorem predict_faces (U : FaceUtil T) (C : CoordsData) (w : World T)
    (cfg : Config) (input : InputT T) (st : MeshState) :
    (predict U C w cfg input st).faces =
      (processAll U C w cfg input st.model.isSome st.inputSize 0
        (predict U C w cfg input st).midCache).map (·.face) := rfl

theorem predict_boxCache (U : FaceUtil T) (C : CoordsData) (w : World T)
    (cfg : Config) (input : InputT T) (st : MeshState) :
    (predict U C w cfg input st).st.boxCache =
      (processAll U C w cfg input st.model.isSome st.inputSize 0
        (predict U C w cfg input st).midCache).filterMap (·.cacheEntry) := rfl

theorem predict_logs (U : FaceUtil T) (C : CoordsData) (w : World T)
    (cfg : Config) (input : InputT T) (st : MeshState) :
    (predict U C w cfg input st).logs =
      ((processAll U C w cfg input st.model.isSome st.inputSize 0
        (predict U C w cfg input st).midCache).map (·.logs)).flatten := rfl

theorem processAll_length (U : FaceUtil T) (C : CoordsData) (w : World T)
    (cfg : Config) (input : InputT T) (ml : Bool) (isz : ℤ) :
    ∀ (k : ℕ) (l : List BoxCache),
      (processAll U C w cfg input ml isz k l).length = l.length := by
  intro k l
  induction l generalizing k with
  | nil => simp [processAll]
  | cons b rest ih => simp [processAll, ih]

theorem processAll_getElem (U : FaceUtil T) (C : CoordsData) (w : World T)
    (cfg : Config) (input : InputT T) (ml : Bool) (isz : ℤ) :
    ∀ (l : List BoxCache) (k i : ℕ),
      (processAll U C w cfg input ml isz k l)[i]? =
        (l[i]?).map (fun b => processBox U C w cfg input ml isz (k + i) b) := by
  intro l
  induction l with
  | nil => intro k i; simp [processAll]
  | cons b rest ih =>
    intro k i
    cases i with
    | zero => simp [processAll]
    | succ n =>
      simp only [processAll, List.getElem?_cons_succ]
      rw [ih (k + 1) n]
      have : k + 1 + n = k + (n + 1) := by omega
      rw [this]

theorem processBox_meshOff (U : FaceUtil T) (C : CoordsData) (w : World T)
    (cfg : Config) (input : InputT T) (ml : Bool) (isz : ℤ) (idx : ℕ) (box : BoxCache)
    (h : cfgMeshEnabled cfg = false) :
    processBox U C w cfg input ml isz idx box =
      { face := detectorFace U C cfg w input isz idx box,
        cacheEntry := none, updatedBox := box, logs := [] } := by
  simp [processBox, h]

theorem processBox_notLoaded (U : FaceUtil T) (C : CoordsData) (w : World T)
    (cfg : Config) (input : InputT T) (isz : ℤ) (idx : ℕ) (box : BoxCache)
    (h : cfgMeshEnabled cfg = true) :
    processBox U C w cfg input false isz idx box =
      { face := initFace U cfg w input isz idx box,
        cacheEntry := none, updatedBox := box,
        logs := if cfg.debug then [notLoadedMsg] else [] } := by
  simp [processBox, h]

theorem processBox_low (U : FaceUtil T) (C : CoordsData) (w : World T)
    (cfg : Config) (input : InputT T) (isz : ℤ) (idx : ℕ) (box : BoxCache)
    (h : cfgMeshEnabled cfg = true)
    (hlow : meshFaceScore U cfg w input isz box < cfgMinConfidence cfg) :
    processBox U C w cfg input true isz idx box =
      { face := { initFace U cfg w input isz idx box with
          faceScore := meshFaceScore U cfg w input isz box },
        cacheEntry := none,
        updatedBox := { box with confidence := meshFaceScore U cfg w input isz box },
        logs := [] } := by
  simp [processBox, h, hlow]

theorem processBox_high (U : FaceUtil T) (C : CoordsData) (w : World T)
    (cfg : Config) (input : InputT T) (isz : ℤ) (idx : ℕ) (box : BoxCache)
    (h : cfgMeshEnabled cfg = true)
    (hhigh : ¬ meshFaceScore U cfg w input isz box < cfgMinConfidence cfg) :
    processBox U C w cfg input true isz idx box =
      { face := { initFace U cfg w input isz idx box with
          faceScore := meshFaceScore U cfg w input isz box,
          mesh := meshPoints U cfg w input isz box,
          meshRaw := (meshPoints U cfg w input isz box).map (rawPoint input isz),
          annotations := C.meshAnnotations.map
            (fun kv => (kv.1, kv.2.map (fun j => (meshPoints U cfg w input isz box)[j]?))),
          box := U.getClampedBox (meshBox U cfg w input isz box) input,
          boxRaw := U.getRawBox (meshBox U cfg w input isz box) input,
          score := meshFaceScore U cfg w input isz box },
        cacheEntry := some (meshBox U cfg w input isz box),
        updatedBox := box, logs := [] } := by
  simp [processBox, h, hhigh]

theorem processBox_id (U : FaceUtil T) (C : CoordsData) (w : World T)
    (cfg : Config) (input : InputT T) (ml : Bool) (isz : ℤ) (idx : ℕ) (box : BoxCache) :
    (processBox U C w cfg input ml isz idx box).face.id = idx := by
  unfold processBox
  split_ifs <;> simp [detectorFace, initFace]

theorem processBox_boxScore (U : FaceUtil T) (C : CoordsData) (w : World T)
    (cfg : Config) (input : InputT T) (ml : Bool) (isz : ℤ) (idx : ℕ) (box : BoxCache) :
    (processBox U C w cfg input ml isz idx box).face.boxScore = roundScore box.confidence := by
  unfold processBox
  split_ifs <;> simp [detectorFace, initFace]

theorem processBox_tensor (U : FaceUtil T) (C : CoordsData) (w : World T)
    (cfg : Config) (input : InputT T) (ml : Bool) (isz : ℤ) (idx : ℕ) (box : BoxCache) :
    (processBox U C w cfg input ml isz idx box).face.tensor =
      some (cropBox U cfg w input isz box).2.2 := by
  unfold processBox
  split_ifs <;> simp [detectorFace, initFace]

theorem processBox_meshRaw (U : FaceUtil T) (C : CoordsData) (w : World T)
    (cfg : Config) (input : InputT T) (ml : Bool) (isz : ℤ) (idx : ℕ) (box : BoxCache) :
    (processBox U C w cfg input ml isz idx box).face.meshRaw =
      ((processBox U C w cfg input ml isz idx box).face.mesh).map (rawPoint input isz) := by
  unfold processBox
  split_ifs <;> simp [detectorFace, initFace]

theorem processBox_logs (U : FaceUtil T) (C : CoordsData) (w : World T)
    (cfg : Config) (input : InputT T) (ml : Bool) (isz : ℤ) (idx : ℕ) (box : BoxCache) :
    (processBox U C w cfg input ml isz idx box).logs =
      if cfgMeshEnabled cfg && !ml && cfg.debug then [notLoadedMsg] else [] := by
  unfold processBox
  split_ifs <;> simp_all [Bool.not_eq_true']

theorem processBox_cacheEntry_isSome (U : FaceUtil T) (C : CoordsData) (w : World T)
    (cfg : Config) (input : InputT T) (ml : Bool) (isz : ℤ) (idx : ℕ) (box : BoxCache) :
    (processBox U C w cfg input ml isz idx box).cacheEntry.isSome =
      (cfgMeshEnabled cfg && ml &&
        !(decide (meshFaceScore U cfg w input isz box < cfgMinConfidence cfg))) := by
  unfold processBox
  split_ifs <;> simp_all [Bool.not_eq_true']

theorem processAll_logs (U : FaceUtil T) (C : CoordsData) (w : World T)
    (cfg : Config) (input : InputT T) (ml : Bool) (isz : ℤ) :
    ∀ (k : ℕ) (l : List BoxCache),
      ((processAll U C w cfg input ml isz k l).map (·.logs)).flatten =
        if cfgMeshEnabled cfg && !ml && cfg.debug then List.replicate l.length notLoadedMsg
        else [] := by
  intro k l
  induction l generalizing k with
  | nil => simp [processAll]
  | cons b rest ih =>
    simp only [processAll, List.map_cons, List.flatten_cons, ih (k + 1), processBox_logs,
      List.length_cons]
    split_ifs <;> simp [List.replicate_succ]

theorem processAll_mesh_empty_of_notLoaded (U : FaceUtil T) (C : CoordsData) (w : World T)
    (cfg : Config) (input : InputT T) (isz : ℤ) (h : cfgMeshEnabled cfg = true) :
    ∀ (k : ℕ) (l : List BoxCache) (f : FaceResult T),
      f ∈ (processAll U C w cfg input false isz k l).map (·.face) →
        f.mesh = [] ∧ f.meshRaw = [] := by
  intro k l
  induction l generalizing k with
  | nil => simp [processAll]
  | cons b rest ih =>
    intro f hf
    simp only [processAll, List.map_cons, List.mem_cons] at hf
    rcases hf with hf | hf
    · rw [hf, processBox_notLoaded U C w cfg input isz k b h]
      exact ⟨rfl, rfl⟩
    · exact ih (k + 1) f hf

theorem processAll_cacheEntry_none (U : FaceUtil T) (C : CoordsData) (w : World T)
    (cfg : Config) (input : InputT T) (ml : Bool) (isz : ℤ)
    (h : cfgMeshEnabled cfg = false ∨ ml = false) :
    ∀ (k : ℕ) (l : List BoxCache),
      (processAll U C w cfg input ml isz k l).filterMap (·.cacheEntry) = [] := by
  intro k l
  induction l generalizing k with
  | nil => simp [processAll]
  | cons b rest ih =>
    simp only [processAll, List.filterMap_cons]
    have hnone : (processBox U C w cfg input ml isz k b).cacheEntry = none := by
      have hs := processBox_cacheEntry_isSome U C w cfg input ml isz k b
      have hfalse : (processBox U C w cfg input ml isz k b).cacheEntry.isSome = false := by
        rw [hs]
        rcases h with h | h <;> simp [h]
      exact Option.not_isSome_iff_eq_none.mp (by simp [hfalse])
    rw [hnone]
    exact ih (k + 1)

theorem trailingFalse_le_length : ∀ l : List Bool, trailingFalse l ≤ l.length := by
  intro l
  induction l with
  | nil => simp [trailingFalse]
  | cons b rest ih =>
    simp only [trailingFalse, List.length_cons]
    split_ifs <;> omega

theorem runCalls_cons (U : FaceUtil T) (C : CoordsData) (cfg : Config)
    (st : MeshState) (c : World T × InputT T) (cs : List (World T × InputT T)) :
    runCalls U C cfg st (c :: cs) =
      ((runCalls U C cfg (predict U C c.1 cfg c.2 st).st cs).1,
        (predict U C c.1 cfg c.2 st).refreshed ::
          (runCalls U C cfg (predict U C c.1 cfg c.2 st).st cs).2) := rfl

theorem runCalls_skip_invariant (U : FaceUtil T) (C : CoordsData) (cfg : Config)
    (N : ℕ) (hN : cfgSkipFrames cfg = (N : ℚ)) :
    ∀ (calls : List (World T × InputT T)) (st : MeshState),
      (trailingFalse (runCalls U C cfg st calls).2 = (runCalls U C cfg st calls).2.length →
        (runCalls U C cfg st calls).1.skipped =
          st.skipped + (runCalls U C cfg st calls).2.length) ∧
      trailingFalse (runCalls U C cfg st calls).2 ≤ (runCalls U C cfg st calls).1.skipped ∧
      (0 < trailingFalse (runCalls U C cfg st calls).2 →
        (runCalls U C cfg st calls).1.skipped ≤ N) := by
  intro calls
  induction calls with
  | nil => intro st; simp [runCalls, trailingFalse]
  | cons c cs ih =>
    intro st
    obtain ⟨ih1, ih2, ih3⟩ := ih (predict U C c.1 cfg c.2 st).st
    have hr1 : (runCalls U C cfg st (c :: cs)).1 =
        (runCalls U C cfg (predict U C c.1 cfg c.2 st).st cs).1 := rfl
    have hr2 : (runCalls U C cfg st (c :: cs)).2 =
        (predict U C c.1 cfg c.2 st).refreshed ::
          (runCalls U C cfg (predict U C c.1 cfg c.2 st).st cs).2 := rfl
    rw [hr1, hr2]
    have hlen := trailingFalse_le_length (runCalls U C cfg (predict U C c.1 cfg c.2 st).st cs).2
    cases hf : (predict U C c.1 cfg c.2 st).refreshed with
    | false =>
      have hskip : (predict U C c.1 cfg c.2 st).st.skipped = st.skipped + 1 := by
        rw [predict_skipped]
        rw [predict_refreshed] at hf
        simp [hf]
      have hguard : st.skipped < N := by
        rw [predict_refreshed] at hf
        have := shouldRefresh_false_skipFrame cfg st c.1.checkNow hf
        rw [hN] at this
        exact_mod_cast this
      by_cases ht : trailingFalse (runCalls U C cfg (predict U C c.1 cfg c.2 st).st cs).2 =
          (runCalls U C cfg (predict U C c.1 cfg c.2 st).st cs).2.length
      · have e : trailingFalse (false :: (runCalls U C cfg (predict U C c.1 cfg c.2 st).st cs).2) =
            trailingFalse (runCalls U C cfg (predict U C c.1 cfg c.2 st).st cs).2 + 1 := by
          simp [trailingFalse, ht]
        have h1 := ih1 ht
        refine ⟨?_, ?_, ?_⟩
        · intro _
          simp only [List.length_cons]
          omega
        · simp only [e]
          omega
        · intro _
          rcases Nat.eq_zero_or_pos
            (trailingFalse (runCalls U C cfg (predict U C c.1 cfg c.2 st).st cs).2) with h0 | hpos
          · omega
          · exact ih3 hpos
      · have e : trailingFalse (false :: (runCalls U C cfg (predict U C c.1 cfg c.2 st).st cs).2) =
            trailingFalse (runCalls U C cfg (predict U C c.1 cfg c.2 st).st cs).2 := by
          simp [trailingFalse, ht]
        refine ⟨?_, ?_, ?_⟩
        · intro hcontra
          rw [e] at hcontra
          simp only [List.length_cons] at hcontra
          omega
        · rw [e]; exact ih2
        · intro hpos; rw [e] at hpos; exact ih3 hpos
    | true =>
      have hskip : (predict U C c.1 cfg c.2 st).st.skipped = 0 := by
        rw [predict_skipped]
        rw [predict_refreshed] at hf
        simp [hf]
      have e : trailingFalse (true :: (runCalls U C cfg (predict U C c.1 cfg c.2 st).st cs).2) =
          trailingFalse (runCalls U C cfg (predict U C c.1 cfg c.2 st).st cs).2 := by
        simp only [trailingFalse]
        split_ifs <;> rfl
      refine ⟨?_, ?_, ?_⟩
      · intro hcontra
        rw [e] at hcontra
        simp only [List.length_cons] at hcontra
        omega
      · rw [e]; exact ih2
      · intro hpos; rw [e] at hpos; exact ih3 hpos

/-! ### Claims -/

/-- C1: on every `predict` call the blazeface detector is re-invoked and the
box cache rebuilt from its results exactly when skipping is disallowed, the
time elapsed since the last detector run reaches `skipTime`, the count of
consecutively skipped frames reaches `skipFrames`, or the cache is empty; on
re-invocation the skipped counter is reset to 0, on reuse it is incremented. -/
theorem predict_refresh_policy (U : FaceUtil T) (C : CoordsData) (w : World T)
    (cfg : Config) (input : InputT T) (st : MeshState) :
    ((predict U C w cfg input st).refreshed = true ↔
      (cfg.skipAllowed = false ∨ cfgSkipTime cfg ≤ w.checkNow - st.lastTime ∨
        cfgSkipFrames cfg ≤ (st.skipped : ℚ) ∨ st.boxCache = [])) ∧
    ((predict U C w cfg input st).refreshed = true →
      (predict U C w cfg input st).midCache = w.detBoxes.map (detectBox U w.scaleFactor) ∧
      (predict U C w cfg input st).st.skipped = 0) ∧
    ((predict U C w cfg input st).refreshed = false →
      (predict U C w cfg input st).midCache = st.boxCache ∧
      (predict U C w cfg input st).st.skipped = st.skipped + 1) := by
  refine ⟨?_, ?_, ?_⟩
  · rw [predict_refreshed]
    exact shouldRefresh_iff cfg st w.checkNow
  · intro h
    rw [predict_refreshed] at h
    constructor
    · simp [predict_midCache, h]
    · simp [predict_skipped, h]
  · intro h
    rw [predict_refreshed] at h
    constructor
    · simp [predict_midCache, h]
    · simp [predict_skipped, h]

/-- C1 witness: a concrete call with an empty cache refreshes, rebuilds the
cache from the detector boxes and resets the skip counter. -/
theorem predict_refresh_policy_witness :
    (predict testUtil testCoords worldHigh cfgMeshOn testInput stLoaded).refreshed = true ∧
    (predict testUtil testCoords worldHigh cfgMeshOn testInput stLoaded).st.skipped = 0 ∧
    (predict testUtil testCoords worldHigh cfgMeshOn testInput stLoaded).midCache =
      worldHigh.detBoxes.map (detectBox testUtil worldHigh.scaleFactor) := by
  have h := predict_refresh_policy testUtil testCoords worldHigh cfgMeshOn testInput stLoaded
  have hr : (predict testUtil testCoords worldHigh cfgMeshOn testInput stLoaded).refreshed = true :=
    h.1.mpr (Or.inr (Or.inr (Or.inr rfl)))
  exact ⟨hr, (h.2.1 hr).2, (h.2.1 hr).1⟩

/-- C2 (amended): over any run of `predict` calls under a fixed config whose
`skipFrames` value is a natural number `N`, the number of trailing
consecutive calls that reused the cache never exceeds `N` — the cache is
reused for at most `N` consecutive calls (the count can reach exactly `N`,
so "at most", not "strictly below"). -/
theorem runCalls_reuse_at_most_skipFrames (U : FaceUtil T) (C : CoordsData)
    (cfg : Config) (N : ℕ) (hN : cfgSkipFrames cfg = (N : ℚ))
    (st : MeshState) (calls : List (World T × InputT T)) :
    trailingFalse (runCalls U C cfg st calls).2 ≤ N := by
  obtain ⟨h1, h2, h3⟩ := runCalls_skip_invariant U C cfg N hN calls st
  rcases Nat.eq_zero_or_pos (trailingFalse (runCalls U C cfg st calls).2) with h0 | hpos
  · omega
  · exact le_trans h2 (h3 hpos)

/-- C2 witness: the bound applied to a concrete two-call run with skipFrames = 1. -/
theorem runCalls_reuse_at_most_skipFrames_witness :
    trailingFalse (runCalls testUtil testCoords cfgMeshOn stLoaded
      [(worldHigh, testInput), (worldHigh, testInput)]).2 ≤ 1 :=
  runCalls_reuse_at_most_skipFrames testUtil testCoords cfgMeshOn 1 (by decide) stLoaded
    [(worldHigh, testInput), (worldHigh, testInput)]

unseal Rat.add Rat.sub Rat.mul Rat.inv in
/-- C2 counterexample: with `skipFrames = 1`, a two-call run from a reachable
loaded state ends with the last call reusing the cache while the count of
consecutive reusing calls equals `skipFrames` — not strictly below it, as the
claim states. -/
theorem runCalls_trailing_reaches_skipFrames :
    (runCalls testUtil testCoords cfgMeshOn stLoaded
      [(worldHigh, testInput), (worldHigh, testInput)]).2 = [true, false] ∧
    cfgSkipFrames cfgMeshOn = 1 ∧
    ¬ ((trailingFalse (runCalls testUtil testCoords cfgMeshOn stLoaded
        [(worldHigh, testInput), (worldHigh, testInput)]).2 : ℚ) < cfgSkipFrames cfgMeshOn) := by
  decide

/-- C4: whenever the detector refresh runs inside `predict`, the cache the
call processes is rebuilt solely from the boxes the detector returned in that
call, one entry per detected box; no entry of the prior cache survives (any
prior state refreshing in the same call world yields the identical cache). -/
theorem predict_refresh_wholesale (U : FaceUtil T) (C : CoordsData) (w : World T)
    (cfg : Config) (input : InputT T) (st : MeshState)
    (h : (predict U C w cfg input st).refreshed = true) :
    (predict U C w cfg input st).midCache = w.detBoxes.map (detectBox U w.scaleFactor) ∧
    (predict U C w cfg input st).midCache.length = w.detBoxes.length ∧
    (∀ st2 : MeshState, (predict U C w cfg input st2).refreshed = true →
      (predict U C w cfg input st2).midCache = (predict U C w cfg input st).midCache) := by
  rw [predict_refreshed] at h
  refine ⟨?_, ?_, ?_⟩
  · simp [predict_midCache, h]
  · simp [predict_midCache, h]
  · intro st2 h2
    rw [predict_refreshed] at h2
    simp [predict_midCache, h, h2]

unseal Rat.add Rat.sub Rat.mul Rat.inv in
/-- C4 witness: the rebuilt cache of a concrete refreshing call. -/
theorem predict_refresh_wholesale_witness :
    (predict testUtil testCoords worldHigh cfgMeshOn testInput stLoaded).midCache =
      worldHigh.detBoxes.map (detectBox testUtil worldHigh.scaleFactor) ∧
    (predict testUtil testCoords worldHigh cfgMeshOn testInput stLoaded).midCache.length =
      worldHigh.detBoxes.length :=
  ⟨(predict_refresh_wholesale testUtil testCoords worldHigh cfgMeshOn testInput stLoaded
      (by decide)).1,
   (predict_refresh_wholesale testUtil testCoords worldHigh cfgMeshOn testInput stLoaded
      (by decide)).2.1⟩

/-- C5: rotation correction is applied iff detector rotation is set, mesh is
enabled, and the kernel list contains rotatewithoffset; in every other case
the angle is 0, the fixed rotation matrix is used, and the crop is a plain
cut-and-resize of the cached box; the face tensor is always the crop. -/
theorem cropBox_rotation_policy (U : FaceUtil T) (C : CoordsData) (w : World T)
    (cfg : Config) (input : InputT T) (ml : Bool) (isz : ℤ) (idx : ℕ) (box : BoxCache) :
    (rotationApplies cfg w.kernels =
      (cfgRotation cfg && cfgMeshEnabled cfg && w.kernels.contains "rotatewithoffset")) ∧
    (rotationApplies cfg w.kernels = true →
      cropBox U cfg w input isz box = U.correctFaceRotation box input.data isz) ∧
    (rotationApplies cfg w.kernels = false →
      cropBox U cfg w input isz box =
        (0, U.fixedRotationMatrix,
          U.cutBoxFromImageAndResize box input.data
            (if cfgMeshEnabled cfg then (isz, isz) else (w.blazefaceSize, w.blazefaceSize)))) ∧
    ((processBox U C w cfg input ml isz idx box).face.tensor =
      some (cropBox U cfg w input isz box).2.2) := by
  refine ⟨rfl, ?_, ?_, processBox_tensor U C w cfg input ml isz idx box⟩
  · intro h
    simp [cropBox, h]
  · intro h
    simp [cropBox, h]

/-- C5 witness: with rotation off in the config, a concrete crop is the plain
cut-and-resize, and the face tensor is that crop. -/
theorem cropBox_rotation_policy_witness :
    cropBox testUtil cfgMeshOn worldHigh testInput 192 testBox =
      (0, testUtil.fixedRotationMatrix,
        testUtil.cutBoxFromImageAndResize testBox testInput.data
          (if cfgMeshEnabled cfgMeshOn then ((192 : ℤ), (192 : ℤ))
           else (worldHigh.blazefaceSize, worldHigh.blazefaceSize))) ∧
    (processBox testUtil testCoords worldHigh cfgMeshOn testInput true 192 0 testBox).face.tensor =
      some (cropBox testUtil cfgMeshOn worldHigh testInput 192 testBox).2.2 :=
  ⟨(cropBox_rotation_policy testUtil testCoords worldHigh cfgMeshOn testInput true 192 0
      testBox).2.2.1 (by decide),
   (cropBox_rotation_policy testUtil testCoords worldHigh cfgMeshOn testInput true 192 0
      testBox).2.2.2⟩

/-- C3: when the mesh-model confidence of a cached box falls below
`minConfidence`, the box's cached confidence is overwritten with the low
score, the box is not pushed into the cache for the next call (only passing
boxes are), and the corresponding returned face keeps empty mesh, empty
annotations and score 0; no retry or recovery is attempted. -/
theorem predict_lowConfidence_discards (U : FaceUtil T) (C : CoordsData) (w : World T)
    (cfg : Config) (input : InputT T) (st : MeshState) (i : ℕ) (box : BoxCache)
    (g : GraphModelM)
    (hmesh : cfgMeshEnabled cfg = true)
    (hmodel : st.model = some g)
    (hbox : (predict U C w cfg input st).midCache[i]? = some box)
    (hlow : meshFaceScore U cfg w input st.inputSize box < cfgMinConfidence cfg) :
    (predict U C w cfg input st).faces[i]? =
      some (processBox U C w cfg input true st.inputSize i box).face ∧
    (processBox U C w cfg input true st.inputSize i box).face.mesh = [] ∧
    (processBox U C w cfg input true st.inputSize i box).face.meshRaw = [] ∧
    (processBox U C w cfg input true st.inputSize i box).face.annotations = [] ∧
    (processBox U C w cfg input true st.inputSize i box).face.score = 0 ∧
    (processBox U C w cfg input true st.inputSize i box).face.faceScore =
      meshFaceScore U cfg w input st.inputSize box ∧
    (processBox U C w cfg input true st.inputSize i box).cacheEntry = none ∧
    (processBox U C w cfg input true st.inputSize i box).updatedBox =
      { box with confidence := meshFaceScore U cfg w input st.inputSize box } ∧
    (predict U C w cfg input st).st.boxCache =
      (processAll U C w cfg input true st.inputSize 0
        (predict U C w cfg input st).midCache).filterMap (·.cacheEntry) := by
  have hml : st.model.isSome = true := by rw [hmodel]; rfl
  have hpb := processBox_low U C w cfg input st.inputSize i box hmesh hlow
  have hfaces : (predict U C w cfg input st).faces[i]? =
      some (processBox U C w cfg input true st.inputSize i box).face := by
    rw [predict_faces, hml, List.getElem?_map,
      processAll_getElem U C w cfg input true st.inputSize _ 0 i, hbox]
    simp
  refine ⟨hfaces, ?_, ?_, ?_, ?_, ?_, ?_, ?_, ?_⟩
  · simp [hpb, initFace]
  · simp [hpb, initFace]
  · simp [hpb, initFace]
  · simp [hpb, initFace]
  · simp [hpb]
  · simp [hpb]
  · simp [hpb]
  · rw [predict_boxCache, hml]

unseal Rat.add Rat.sub Rat.mul Rat.inv in
/-- C3 witness: a concrete low-confidence call (mesh confidence 0 against
threshold 1/10). -/
theorem predict_lowConfidence_discards_witness :
    (predict testUtil testCoords worldLow cfgMeshOn testInput stLoaded).faces[0]? =
      some (processBox testUtil testCoords worldLow cfgMeshOn testInput true stLoaded.inputSize
        0 testBox).face ∧
    (processBox testUtil testCoords worldLow cfgMeshOn testInput true stLoaded.inputSize
      0 testBox).face.mesh = [] ∧
    (processBox testUtil testCoords worldLow cfgMeshOn testInput true stLoaded.inputSize
      0 testBox).face.meshRaw = [] ∧
    (processBox testUtil testCoords worldLow cfgMeshOn testInput true stLoaded.inputSize
      0 testBox).face.annotations = [] ∧
    (processBox testUtil testCoords worldLow cfgMeshOn testInput true stLoaded.inputSize
      0 testBox).face.score = 0 ∧
    (processBox testUtil testCoords worldLow cfgMeshOn testInput true stLoaded.inputSize
      0 testBox).face.faceScore =
      meshFaceScore testUtil cfgMeshOn worldLow testInput stLoaded.inputSize testBox ∧
    (processBox testUtil testCoords worldLow cfgMeshOn testInput true stLoaded.inputSize
      0 testBox).cacheEntry = none ∧
    (processBox testUtil testCoords worldLow cfgMeshOn testInput true stLoaded.inputSize
      0 testBox).updatedBox =
      { testBox with
        confidence := meshFaceScore testUtil cfgMeshOn worldLow testInput stLoaded.inputSize testBox } ∧
    (predict testUtil testCoords worldLow cfgMeshOn testInput stLoaded).st.boxCache =
      (processAll testUtil testCoords worldLow cfgMeshOn testInput true stLoaded.inputSize 0
        (predict testUtil testCoords worldLow cfgMeshOn testInput stLoaded).midCache).filterMap
        (·.cacheEntry) :=
  predict_lowConfidence_discards testUtil testCoords worldLow cfgMeshOn testInput stLoaded 0
    testBox testModel rfl rfl (by decide) (by decide)

/-- C6: every cache entry built by a detector refresh is the raw detector box
scaled by the detector scale factor, enlarged by sqrt(1.6) and squarified;
every cache entry re-derived from a computed mesh is the bounding box of the
mesh landmarks enlarged by 1.6 and squarified. -/
theorem cache_box_pipeline (U : FaceUtil T) (C : CoordsData) (w : World T)
    (cfg : Config) (input : InputT T) (st : MeshState) (isz : ℤ) (idx : ℕ) (box : BoxCache)
    (hmesh : cfgMeshEnabled cfg = true)
    (hhigh : ¬ meshFaceScore U cfg w input isz box < cfgMinConfidence cfg) :
    ((predict U C w cfg input st).refreshed = true →
      (predict U C w cfg input st).midCache = w.detBoxes.map (fun b =>
        U.squarifyBox (U.enlargeBox (U.scaleBoxCoordinates b w.scaleFactor)
          (EnlargeFactor.sqrtNum (8 / 5))))) ∧
    (processBox U C w cfg input true isz idx box).cacheEntry =
      some (U.squarifyBox (U.enlargeBox
        (U.calculateLandmarksBoundingBox
          ((processBox U C w cfg input true isz idx box).face.mesh))
        (EnlargeFactor.num (8 / 5)))) := by
  constructor
  · intro h
    rw [predict_refreshed] at h
    simp [predict_midCache, h, detectBox, enlargeFact]
  · rw [processBox_high U C w cfg input isz idx box hmesh hhigh]
    simp [meshBox, enlargeFact, initFace]

unseal Rat.add Rat.sub Rat.mul Rat.inv in
/-- C6 witness: the two box pipelines at a concrete refreshing,
high-confidence call. -/
theorem cache_box_pipeline_witness :
    (predict testUtil testCoords worldHigh cfgMeshOn testInput stLoaded).midCache =
      worldHigh.detBoxes.map (fun b =>
        testUtil.squarifyBox (testUtil.enlargeBox
          (testUtil.scaleBoxCoordinates b worldHigh.scaleFactor)
          (EnlargeFactor.sqrtNum (8 / 5)))) ∧
    (processBox testUtil testCoords worldHigh cfgMeshOn testInput true 192 0 testBox).cacheEntry =
      some (testUtil.squarifyBox (testUtil.enlargeBox
        (testUtil.calculateLandmarksBoundingBox
          ((processBox testUtil testCoords worldHigh cfgMeshOn testInput true 192
            0 testBox).face.mesh))
        (EnlargeFactor.num (8 / 5)))) :=
  ⟨(cache_box_pipeline testUtil testCoords worldHigh cfgMeshOn testInput stLoaded 192 0 testBox
      (by decide) (by decide)).1 (by decide),
   (cache_box_pipeline testUtil testCoords worldHigh cfgMeshOn testInput stLoaded 192 0 testBox
      (by decide) (by decide)).2⟩

/-- C7: for every face, `meshRaw` is `mesh` pointwise normalized: x divided by
the input width `input.shape[2]`, y by the input height `input.shape[1]`, and
z (taken as 0 when absent) by the mesh model input size. -/
theorem meshRaw_normalized (U : FaceUtil T) (C : CoordsData) (w : World T)
    (cfg : Config) (input : InputT T) (ml : Bool) (isz : ℤ) (idx : ℕ) (box : BoxCache)
    (wdt hgt : ℚ)
    (hw : input.shape2 = some wdt) (hw0 : wdt ≠ 0)
    (hh : input.shape1 = some hgt) (hh0 : hgt ≠ 0) :
    (processBox U C w cfg input ml isz idx box).face.meshRaw =
      ((processBox U C w cfg input ml isz idx box).face.mesh).map (fun pt =>
        [pt.getD 0 0 / wdt, pt.getD 1 0 / hgt, pt.getD 2 0 / (isz : ℚ)]) := by
  rw [processBox_meshRaw]
  have he : rawPoint input isz = fun pt : List ℚ =>
      [pt.getD 0 0 / wdt, pt.getD 1 0 / hgt, pt.getD 2 0 / (isz : ℚ)] := by
    funext pt
    simp [rawPoint, hw, hh, jsOr, hw0, hh0]
  rw [he]

unseal Rat.add Rat.sub Rat.mul Rat.inv in
/-- C7 witness: the normalization at a concrete high-confidence mesh call
with input width 200 and height 100. -/
theorem meshRaw_normalized_witness :
    (processBox testUtil testCoords worldHigh cfgMeshOn testInput true 192 0 testBox).face.meshRaw =
      ((processBox testUtil testCoords worldHigh cfgMeshOn testInput true 192
        0 testBox).face.mesh).map (fun pt =>
          [pt.getD 0 0 / 200, pt.getD 1 0 / 100, pt.getD 2 0 / ((192 : ℤ) : ℚ)]) :=
  meshRaw_normalized testUtil testCoords worldHigh cfgMeshOn testInput true 192 0 testBox
    200 100 rfl (by decide) rfl (by decide)

/-- A loaded model object without a `modelUrl`, as `load` checks on line 130. -/
def gNoUrl : GraphModelM := { modelUrl := none, inputShape := some [1, 192, 192, 3] }

/-- A `load` call world on a fresh environment yielding `gNoUrl`. -/
def lwFresh : LoadWorld := { envInitial := true, loadResult := some gNoUrl }

/-- A `load` call world on a fresh environment whose `tf.loadGraphModel`
yields `null`. -/
def lwNull : LoadWorld := { envInitial := true, loadResult := none }

/-- C8 (amended): error handling is best-effort logging: when
`tf.loadGraphModel` yields a model object without a usable `modelUrl`, `load`
logs a failure message and returns normally, but when it yields `null`,
`load` logs the failure message and then raises at the model-inputs
dereference of line 133; when `predict` runs with mesh enabled but no model
loaded, it logs the condition once per cached box (under `config.debug`) and
still returns a face result per cached box without mesh data; and when
confidence falls below threshold the box is discarded silently — no log is
emitted, since `predict` logs nothing at all whenever the model is loaded,
mesh is disabled, or debug is off; no call retries. -/
theorem bestEffort_logging (U : FaceUtil T) (C : CoordsData) (w : World T)
    (cfg : Config) (input : InputT T) (st : MeshState) (lw : LoadWorld) (g : GraphModelM) :
    (lw.loadResult = some g → (if lw.envInitial then none else st.model) = none →
      jsTruthyStr g.modelUrl = false →
      (load lw cfg st).toOption.map (fun r => r.2.2) = some [loadFailedMsg]) ∧
    (lw.loadResult = none → (if lw.envInitial then none else st.model) = none →
      load lw cfg st = Except.error [loadFailedMsg]) ∧
    (cfgMeshEnabled cfg = true → st.model = none →
      (predict U C w cfg input st).faces.length = (predict U C w cfg input st).midCache.length ∧
      (∀ f ∈ (predict U C w cfg input st).faces, f.mesh = [] ∧ f.meshRaw = []) ∧
      (predict U C w cfg input st).logs =
        (if cfg.debug then
          List.replicate (predict U C w cfg input st).midCache.length notLoadedMsg
         else [])) ∧
    ((st.model.isSome = true ∨ cfgMeshEnabled cfg = false ∨ cfg.debug = false) →
      (predict U C w cfg input st).logs = []) := by
  refine ⟨?_, ?_, ?_, ?_⟩
  · intro h1 h2 h3
    simp [load, h2, h1, h3]
    exact ⟨_, _, rfl⟩
  · intro h1 h2
    simp [load, h2, h1]
  · intro hmesh hnone
    have hml : st.model.isSome = false := by rw [hnone]; rfl
    refine ⟨?_, ?_, ?_⟩
    · rw [predict_faces, List.length_map, processAll_length]
    · intro f hf
      rw [predict_faces, hml] at hf
      exact processAll_mesh_empty_of_notLoaded U C w cfg input st.inputSize hmesh 0 _ f hf
    · rw [predict_logs, hml, processAll_logs]
      simp [hmesh]
  · intro h
    rw [predict_logs, processAll_logs]
    rcases h with h | h | h <;> simp [h]

/-- C8 witness: a concrete no-url load that logs and returns, a concrete null
load that logs and raises, and a concrete loaded `predict` call that logs
nothing. -/
theorem bestEffort_logging_witness :
    (load lwFresh cfgMeshOn initialState).toOption.map (fun r => r.2.2) =
      some [loadFailedMsg] ∧
    load lwNull cfgMeshOn initialState = Except.error [loadFailedMsg] ∧
    (predict testUtil testCoords worldHigh cfgMeshOn testInput stLoaded).logs = [] :=
  ⟨(bestEffort_logging testUtil testCoords worldHigh cfgMeshOn testInput initialState
      lwFresh gNoUrl).1 rfl rfl rfl,
   (bestEffort_logging testUtil testCoords worldHigh cfgMeshOn testInput initialState
      lwNull gNoUrl).2.1 rfl rfl,
   (bestEffort_logging testUtil testCoords worldHigh cfgMeshOn testInput stLoaded
      lwFresh gNoUrl).2.2.2 (Or.inl rfl)⟩

unseal Rat.add Rat.sub Rat.mul Rat.inv in
/-- C8 counterexample: the claim fails at two concrete inputs.  A `predict`
call whose only cached box scores below `minConfidence`, with debug logging
on, emits no log at all — the low-confidence event is not logged.  And a
`load` call whose `tf.loadGraphModel` yields `null` logs the failure message
but then raises (the line 133 dereference) — it does not return normally. -/
theorem predict_lowConfidence_silent :
    (predict testUtil testCoords worldLow cfgDebug testInput stLoaded).faces.map (·.faceScore) =
      [0] ∧
    (0 : ℚ) < cfgMinConfidence cfgDebug ∧
    cfgDebug.debug = true ∧
    (predict testUtil testCoords worldLow cfgDebug testInput stLoaded).logs = [] ∧
    load lwNull cfgDebug initialState = Except.error [loadFailedMsg] :=
  ⟨by decide, by decide, by decide, by decide, rfl⟩

/-- C9: at the end of every call the cache holds exactly the boxes whose mesh
passed the confidence threshold in that call: a processed box yields a cache
entry iff mesh is enabled, the model is loaded and its score reached
`minConfidence`; with mesh disabled or no model loaded the cache ends empty,
and an empty cache forces the next call to re-run the detector regardless of
the skipTime and skipFrames settings. -/
theorem predict_cache_postcondition (U : FaceUtil T) (C : CoordsData) (w : World T)
    (cfg : Config) (input : InputT T) (st : MeshState) :
    ((predict U C w cfg input st).st.boxCache =
      (processAll U C w cfg input st.model.isSome st.inputSize 0
        (predict U C w cfg input st).midCache).filterMap (·.cacheEntry)) ∧
    (∀ (idx : ℕ) (box : BoxCache),
      (processBox U C w cfg input st.model.isSome st.inputSize idx box).cacheEntry.isSome =
        (cfgMeshEnabled cfg && st.model.isSome &&
          !(decide (meshFaceScore U cfg w input st.inputSize box < cfgMinConfidence cfg)))) ∧
    (cfgMeshEnabled cfg = false ∨ st.model = none →
      (predict U C w cfg input st).st.boxCache = []) ∧
    (∀ (w2 : World T) (cfg2 : Config) (input2 : InputT T) (st2 : MeshState),
      st2.boxCache = [] → (predict U C w2 cfg2 input2 st2).refreshed = true) := by
  refine ⟨predict_boxCache U C w cfg input st, ?_, ?_, ?_⟩
  · intro idx box
    exact processBox_cacheEntry_isSome U C w cfg input st.model.isSome st.inputSize idx box
  · intro h
    rw [predict_boxCache]
    rcases h with h | h
    · exact processAll_cacheEntry_none U C w cfg input st.model.isSome st.inputSize (Or.inl h) 0 _
    · have hml : st.model.isSome = false := by rw [h]; rfl
      exact processAll_cacheEntry_none U C w cfg input st.model.isSome st.inputSize (Or.inr hml) 0 _
  · intro w2 cfg2 input2 st2 h
    rw [predict_refreshed]
    exact (shouldRefresh_iff cfg2 st2 w2.checkNow).mpr (Or.inr (Or.inr (Or.inr h)))

/-- C9 witness: with mesh disabled the cache ends empty, and an empty cache
forces a refresh on the next concrete call. -/
theorem predict_cache_postcondition_witness :
    (predict testUtil testCoords worldHigh cfgMeshOff testInput stLoaded).st.boxCache = [] ∧
    (predict testUtil testCoords worldHigh cfgMeshOn testInput stLoaded).refreshed = true :=
  ⟨(predict_cache_postcondition testUtil testCoords worldHigh cfgMeshOff testInput
      stLoaded).2.2.1 (Or.inl rfl),
   (predict_cache_postcondition testUtil testCoords worldHigh cfgMeshOn testInput
      stLoaded).2.2.2 worldHigh cfgMeshOn testInput stLoaded rfl⟩

/-- C10: every call returns exactly one face per box of the processed cache,
in cache order, with ids assigned sequentially from 0, and each face's
boxScore equal to that box's cached confidence rounded to two decimals. -/
theorem predict_faces_indexed (U : FaceUtil T) (C : CoordsData) (w : World T)
    (cfg : Config) (input : InputT T) (st : MeshState) :
    ((predict U C w cfg input st).faces.length = (predict U C w cfg input st).midCache.length) ∧
    (∀ (i : ℕ) (box : BoxCache), (predict U C w cfg input st).midCache[i]? = some box →
      ((predict U C w cfg input st).faces[i]?).map (·.id) = some i ∧
      ((predict U C w cfg input st).faces[i]?).map (·.boxScore) =
        some (roundScore box.confidence)) := by
  constructor
  · rw [predict_faces, List.length_map, processAll_length]
  · intro i box hbox
    have hfaces : (predict U C w cfg input st).faces[i]? =
        some (processBox U C w cfg input st.model.isSome st.inputSize i box).face := by
      rw [predict_faces, List.getElem?_map,
        processAll_getElem U C w cfg input st.model.isSome st.inputSize _ 0 i, hbox]
      simp
    rw [hfaces]
    constructor
    · simp [processBox_id]
    · simp [processBox_boxScore]

unseal Rat.add Rat.sub Rat.mul Rat.inv in
/-- C10 witness: the indexing and boxScore of a concrete one-box call. -/
theorem predict_faces_indexed_witness :
    (predict testUtil testCoords worldHigh cfgMeshOn testInput stLoaded).faces.length =
      (predict testUtil testCoords worldHigh cfgMeshOn testInput stLoaded).midCache.length ∧
    ((predict testUtil testCoords worldHigh cfgMeshOn testInput stLoaded).faces[0]?).map (·.id) =
      some 0 ∧
    ((predict testUtil testCoords worldHigh cfgMeshOn testInput
      stLoaded).faces[0]?).map (·.boxScore) = some (roundScore testBox.confidence) :=
  ⟨(predict_faces_indexed testUtil testCoords worldHigh cfgMeshOn testInput stLoaded).1,
   ((predict_faces_indexed testUtil testCoords worldHigh cfgMeshOn testInput stLoaded).2 0
      testBox (by decide)).1,
   ((predict_faces_indexed testUtil testCoords worldHigh cfgMeshOn testInput stLoaded).2 0
      testBox (by decide)).2⟩

end Facemesh
